import Mathlib

/-!
Shallow embedding of the session/authentication core and the paginated
list-screen controllers of the rusdi-barber dashboard.

The embedding translates:
* `src/services/authService.ts` — the `AuthService` class (in-memory
  `currentUser`/`authToken`, Web Storage persistence, `login`, `logout`,
  `refreshToken`, `clearAuth`, `isAuthenticated`, `isTokenExpired`);
* `src/hooks/useAuth.tsx` — the `AuthProvider` context value
  (`isAuthenticated: !!user && !!token`);
* `src/pages/pelanggan.tsx` and the payments list page — the list screen
  controllers (`fetchCustomers`/`fetchPayments`, `handleFilterChange`,
  `handleDeleteCustomer`) and `src/pages/BookingManagement.tsx`
  (`handleDeleteBooking`).

JavaScript conventions carried into the model:
* Web Storage (`localStorage`/`sessionStorage`) is a partial map from
  string keys to string values; `getItem` returns `null` (here `none`)
  for a missing key.
* JavaScript truthiness on `string | null` values: `null` and the empty
  string `""` are falsy, every other string is truthy.  `a || b` yields
  `a` when `a` is truthy and `b` otherwise; `!!x` is truthiness of `x`.
* Platform primitives that are not code of this repository (the HTTP
  backend, `JSON.stringify`, and the `atob` + `JSON.parse` payload
  decoding inside `isTokenExpired`) are passed in as explicit function
  parameters, so every theorem quantifies over their behaviour.
-/

namespace RusdiBarber

/-- A Web Storage area (`localStorage` or `sessionStorage`): a partial map
from string keys to string values. -/
def Storage : Type := String → Option String

namespace Storage

/-- `storage.getItem(key)` — `none` models the JavaScript `null`. -/
def getItem (s : Storage) (key : String) : Option String := s key

/-- `storage.setItem(key, value)`. -/
def setItem (s : Storage) (key value : String) : Storage :=
  fun k => if k = key then some value else s k

/-- `storage.removeItem(key)`. -/
def removeItem (s : Storage) (key : String) : Storage :=
  fun k => if k = key then none else s k

/-- A storage area with no entries at all. -/
def empty : Storage := fun _ => none

end Storage

/-- JavaScript truthiness of a `string | null` value: `null` and `""` are
falsy, every other string is truthy. -/
def truthyStr : Option String → Bool
  | none => false
  | some s => s ≠ ""

/-- JavaScript `a || b` on `string | null` values: yields `a` when `a` is
truthy, otherwise `b`. -/
def jsOrStr (a b : Option String) : Option String :=
  if truthyStr a then a else b

/-- The `User` record of `src/types` (string/bool leaves only; nested
timestamps kept as strings as in the wire format). -/
structure User where
  id : String
  email : String
  username : String
  fullName : String
  phone : String
  role : String
  isActive : Bool
  emailVerified : Bool
  createdAt : String
  updatedAt : String
  deriving DecidableEq, Repr

/-- The state owned by the `AuthService` singleton together with the two
Web Storage areas it reads and writes. -/
structure AuthServiceState where
  currentUser : Option User
  authToken : Option String
  localStorage : Storage
  sessionStorage : Storage

/-- `AuthService.isAuthenticated(): return !!(this.authToken && this.currentUser)`.
`authToken && currentUser` yields `authToken` when it is falsy (null or
`""`) and `currentUser` otherwise; `!!` takes truthiness.  A user object
is truthy exactly when it is not null. -/
def AuthServiceState.isAuthenticated (s : AuthServiceState) : Bool :=
  truthyStr s.authToken && s.currentUser.isSome

/-- The reactive state of the `AuthProvider` in `src/hooks/useAuth.tsx`
(the `user` and `token` `useState` cells). -/
structure AuthContextState where
  user : Option User
  token : Option String

/-- The context value field `isAuthenticated: !!user && !!token`. -/
def AuthContextState.isAuthenticated (c : AuthContextState) : Bool :=
  c.user.isSome && truthyStr c.token

/-- `AuthService.clearAuth()`: nulls the in-memory fields and removes
`authToken`, `refreshToken`, `user` from `localStorage` and `authToken`,
`refreshToken` from `sessionStorage`. -/
def clearAuth (s : AuthServiceState) : AuthServiceState where
  currentUser := none
  authToken := none
  localStorage := ((s.localStorage.removeItem "authToken").removeItem "refreshToken").removeItem "user"
  sessionStorage := (s.sessionStorage.removeItem "authToken").removeItem "refreshToken"

/-- `AuthService.logout()`: the server call `POST /auth/logout` is wrapped
in `try`/`catch` whose `catch` only logs, and `clearAuth` runs in the
`finally` block; the client state change is the same whether the server
call succeeded (`serverOk = true`) or threw, and no error escapes (the
return type is a plain state, not an `Except`). -/
def logout (serverOk : Bool) (s : AuthServiceState) : AuthServiceState :=
  -- `serverOk` is the outcome of the best-effort server invalidation; it
  -- does not influence the client state transition.
  match serverOk with
  | true => clearAuth s
  | false => clearAuth s

/-- `LoginForm` credentials (`email`, `password`, `remember`). -/
structure LoginForm where
  email : String
  password : String
  remember : Bool

/-- The `LoginResponse` payload `{user, token, refreshToken}`. -/
structure LoginResponse where
  user : User
  token : String
  refreshToken : String

/-- `AuthService.login(credentials)`.  `server` models the outcome of
`POST /auth/login` (`none` = unsuccessful response or missing data, which
the code turns into a thrown error before touching any state);
`stringify` models `JSON.stringify` for the persisted user record.
On success the in-memory fields are set, `authToken`/`refreshToken` go to
the storage selected by `credentials.remember` (durable `localStorage`
when true, `sessionStorage` otherwise), and the serialized user always
goes to `localStorage`. -/
def login (stringify : User → String) (server : Option LoginResponse)
    (credentials : LoginForm) (s : AuthServiceState) :
    Except String LoginResponse × AuthServiceState :=
  match server with
  | none => (Except.error "Login failed", s)
  | some resp =>
    let s1 : AuthServiceState :=
      { s with authToken := some resp.token, currentUser := some resp.user }
    let s2 : AuthServiceState :=
      if credentials.remember then
        { s1 with localStorage :=
            (s1.localStorage.setItem "authToken" resp.token).setItem "refreshToken" resp.refreshToken }
      else
        { s1 with sessionStorage :=
            (s1.sessionStorage.setItem "authToken" resp.token).setItem "refreshToken" resp.refreshToken }
    let s3 : AuthServiceState :=
      { s2 with localStorage := s2.localStorage.setItem "user" (stringify resp.user) }
    (Except.ok resp, s3)

/-- The two normalized failure reasons of `AuthService.refreshToken`. -/
inductive RefreshError where
  | noRefreshToken
  | refreshFailed
  deriving DecidableEq, Repr

/-- `AuthService.refreshToken()`.  `exchange` models `POST /auth/refresh`
(`none` = unsuccessful response or missing data).  The stored refresh
token is read as `localStorage.getItem("refreshToken") ||
sessionStorage.getItem("refreshToken")`; a falsy read throws
`noRefreshToken`.  On a successful exchange the new token is written to
`localStorage` when `localStorage.getItem("authToken")` is truthy and to
`sessionStorage` otherwise, and the in-memory token is updated.  Every
thrown error passes through the `catch` block, which runs `clearAuth`
before rethrowing the normalized error. -/
def refreshTokenOp (exchange : String → Option String) (s : AuthServiceState) :
    Except RefreshError String × AuthServiceState :=
  match jsOrStr (s.localStorage.getItem "refreshToken") (s.sessionStorage.getItem "refreshToken") with
  | none => (Except.error RefreshError.noRefreshToken, clearAuth s)
  | some r =>
    if r = "" then
      (Except.error RefreshError.noRefreshToken, clearAuth s)
    else
      match exchange r with
      | none => (Except.error RefreshError.refreshFailed, clearAuth s)
      | some newToken =>
        if truthyStr (s.localStorage.getItem "authToken") then
          (Except.ok newToken,
            { s with authToken := some newToken,
                     localStorage := s.localStorage.setItem "authToken" newToken })
        else
          (Except.ok newToken,
            { s with authToken := some newToken,
                     sessionStorage := s.sessionStorage.setItem "authToken" newToken })

/-- What JavaScript observes of the decoded JWT payload inside
`isTokenExpired`: `JSON.parse(atob(token.split(".")[1]))` followed by the
property access `payload.exp`.
* `nullPayload` — the segment decodes to the JSON literal `null`;
  `payload.exp` then throws a `TypeError` (caught, yielding `true`).
* `withExp e` — a payload whose `exp` claim is the numeric value `e`
  (JWT `exp` is a NumericDate; non-numeric `exp` claims do not occur in
  issued tokens and are outside this model).
* `withoutExp` — any other successfully parsed payload without an `exp`
  claim; `payload.exp` is `undefined` and `undefined < t` is `false`. -/
inductive DecodedPayload where
  | nullPayload
  | withExp (e : Int)
  | withoutExp
  deriving DecidableEq, Repr

/-- `AuthService.isTokenExpired(token?)`.  `decode` models the platform
pipeline `t => JSON.parse(atob(t.split(".")[1]))` (`none` = the pipeline
threw, e.g. missing segment, invalid base64, or invalid JSON); `now`
models `Date.now() / 1000`.  `tokenArg` is the optional argument and
`authToken` the in-memory fallback `this.authToken`; `token ||
this.authToken` uses JavaScript truthiness, and a falsy `tokenToCheck`
returns `true` immediately. -/
def isTokenExpired (decode : String → Option DecodedPayload) (now : Int)
    (authToken : Option String) (tokenArg : Option String) : Bool :=
  match jsOrStr tokenArg authToken with
  | none => true
  | some t =>
    if t = "" then true
    else
      match decode t with
      | none => true
      | some DecodedPayload.nullPayload => true
      | some (DecodedPayload.withExp e) => decide (e < now)
      | some DecodedPayload.withoutExp => false

/-! ### List screen controllers -/

/-- A typed filter object viewed as a JavaScript object keyed by field
name.  The outer `Option` records whether the key is an *own property* of
the object; the inner `Option` is the property's value, which may itself
be the JavaScript `undefined` (`none`).  The distinction matters: an
object literal such as `{ status: undefined }` *has* the key `status`
(with value `undefined`), which is different from an object without the
key. -/
def Filters : Type := String → Option (Option String)

/-- JavaScript's object spread `{...old, ...nf}` on filter objects: every
own property of the new object — including one whose value is explicitly
`undefined`, as in `handleFilterChange({ status: undefined })` on the
payments screen — overrides the old object's property; keys absent from
the new object keep the old value. -/
def mergeFilters (old nf : Filters) : Filters :=
  fun k => (nf k).orElse (fun _ => old k)

/-- The `Customer` record of `src/types/customTypes.ts` (fields not
inspected by any list-screen operation are kept as plain strings/numbers;
optional fields are `Option`s). -/
structure Customer where
  id : String
  name : String
  email : String
  phone : String
  totalBookings : Option Nat
  createdAt : String
  updatedAt : String
  deriving DecidableEq, Repr

/-- The `Payment` record of `src/types/customTypes.ts`. -/
structure Payment where
  id : String
  bookingId : String
  amount : Nat
  status : String
  paymentMethod : String
  createdAt : String
  updatedAt : String
  deriving DecidableEq, Repr

/-- A `Booking` as held by `BookingManagement.tsx` (only the fields the
modelled handlers touch). -/
structure Booking where
  id : String
  customerId : String
  stylistId : String
  serviceId : String
  bookingDate : String
  startTime : String
  status : String
  deriving DecidableEq, Repr

/-- A paginated backend response `{data, total, limit, page}` as consumed
by `fetchCustomers` / `fetchPayments`. -/
structure PaginatedResponse (α : Type) where
  data : List α
  total : Nat
  limit : Nat
  page : Nat

/-- The `useState` cells of the `Pelanggan` (customers) list screen. -/
structure CustomerScreenState where
  customers : List Customer
  loading : Bool
  error : Option String
  page : Nat
  totalPages : Nat
  filters : Filters
  searchTerm : String

/-- The `useState` cells of the `Pembayaran` (payments) list screen. -/
structure PaymentScreenState where
  payments : List Payment
  loading : Bool
  error : Option String
  page : Nat
  totalPages : Nat
  filters : Filters

/-- `Math.ceil(total / limit)` as computed by the fetch handlers.  The
JavaScript division is exact rational division followed by ceiling (the
float rounding of IEEE doubles is exact for all realistic magnitudes);
`limit = 0` does not occur, as every request fixes `limit = 10`. -/
def jsCeilDiv (total limit : Nat) : Nat :=
  (Int.ceil ((total : ℚ) / (limit : ℚ))).toNat

/-- The success path of `fetchCustomers` in `src/pages/pelanggan.tsx`:
`setCustomers(response.data)`,
`setTotalPages(Math.ceil(response.total / response.limit))`,
`setLoading(false)`, `setError(null)`. -/
def fetchCustomersSuccess (resp : PaginatedResponse Customer)
    (s : CustomerScreenState) : CustomerScreenState :=
  { s with customers := resp.data,
           totalPages := jsCeilDiv resp.total resp.limit,
           loading := false,
           error := none }

/-- The success path of `fetchPayments` on the payments list screen:
`setPayments(response.data)`,
`setTotalPages(Math.ceil(response.total / response.limit))`,
`setLoading(false)`, `setError(null)`. -/
def fetchPaymentsSuccess (resp : PaginatedResponse Payment)
    (s : PaymentScreenState) : PaymentScreenState :=
  { s with payments := resp.data,
           totalPages := jsCeilDiv resp.total resp.limit,
           loading := false,
           error := none }

/-- The parameters of a list fetch issued by a screen: `getCustomers(page,
10, {...filters, search: searchTerm})` resp. `getPayments(page, 10,
filters)`. -/
structure FetchParams where
  page : Nat
  limit : Nat
  filters : Filters

/-- The request `fetchCustomers` issues for a given screen state:
`customerService.getCustomers(page, 10, {...filters, search: searchTerm})`
— the `search` key is an own property with the (defined) search term,
every other key comes from the filter object. -/
def customerFetchParams (s : CustomerScreenState) : FetchParams where
  page := s.page
  limit := 10
  filters := fun k => if k = "search" then some (some s.searchTerm) else s.filters k

/-- The request `fetchPayments` issues for a given screen state:
`paymentService.getPayments(page, 10, filters)`. -/
def paymentFetchParams (s : PaymentScreenState) : FetchParams where
  page := s.page
  limit := 10
  filters := s.filters

/-- `handleFilterChange(newFilters)` on the customers screen:
`setFilters({...filters, ...newFilters}); setPage(1)`. -/
def handleFilterChange (nf : Filters) (s : CustomerScreenState) : CustomerScreenState :=
  { s with filters := mergeFilters s.filters nf, page := 1 }

/-- `handleFilterChange(newFilters)` on the payments screen. -/
def handleFilterChangePayments (nf : Filters) (s : PaymentScreenState) : PaymentScreenState :=
  { s with filters := mergeFilters s.filters nf, page := 1 }

/-- The customers screen's processing of one filter-change event.  The
handler's two batched state updates produce one re-render; the fetch
effect's dependencies (`page`, `filters`, `searchTerm` through the
`useCallback` of `fetchCustomers`) have changed — `setFilters` always
installs a fresh object reference — so the effect runs exactly once,
issuing one list fetch with the parameters of the new state.  The
returned list collects the list fetches issued by the event. -/
def applyFilterChange (nf : Filters) (s : CustomerScreenState) :
    CustomerScreenState × List FetchParams :=
  let s' := handleFilterChange nf s
  (s', [customerFetchParams s'])

/-- The payments screen's processing of one filter-change event (same
re-render/effect discipline as the customers screen). -/
def applyFilterChangePayments (nf : Filters) (s : PaymentScreenState) :
    PaymentScreenState × List FetchParams :=
  let s' := handleFilterChangePayments nf s
  (s', [paymentFetchParams s'])

/-- The success path of `handleDeleteCustomer(id)` in
`src/pages/pelanggan.tsx` after the backend delete resolves:
`setCustomers(customers.filter((customer) => customer.id !== id))`.
No other state cell changes, and the fetch effect's dependencies are
untouched, so no refetch is issued (the second component collects the
list fetches triggered by the event — none). -/
def handleDeleteCustomerSuccess (id : String) (s : CustomerScreenState) :
    CustomerScreenState × List FetchParams :=
  ({ s with customers := s.customers.filter (fun customer => customer.id ≠ id) }, [])

/-- The booking-management screen state (`bookings` list plus the
`pagination` object of `BookingManagement.tsx`). -/
structure BookingScreenState where
  bookings : List Booking
  page : Nat
  limit : Nat
  total : Nat
  totalPages : Nat

/-- The success path of `handleDeleteBooking` in
`src/pages/BookingManagement.tsx` for the selected booking id:
`setBookings((prev) => prev.filter((booking) => booking.id !== selectedBooking.id))`.
The `pagination` cell is untouched and the load effect's dependencies
(`pagination.page`, `filters`) do not change, so no refetch is issued. -/
def handleDeleteBookingSuccess (id : String) (s : BookingScreenState) :
    BookingScreenState × List FetchParams :=
  ({ s with bookings := s.bookings.filter (fun booking => booking.id ≠ id) }, [])

/-! ### Concrete sample values used by counterexamples and witnesses -/

/-- A concrete user record. -/
def demoUser : User where
  id := "u1"
  email := "admin@example.com"
  username := "admin"
  fullName := "Admin User"
  phone := "+620000000000"
  role := "ADMIN"
  isActive := true
  emailVerified := true
  createdAt := "2024-01-01T00:00:00Z"
  updatedAt := "2024-01-01T00:00:00Z"

/-- A Session Manager state holding a present user and a present — but
empty-string — token. -/
def emptyTokenServiceState : AuthServiceState where
  currentUser := some demoUser
  authToken := some ""
  localStorage := Storage.empty
  sessionStorage := Storage.empty

/-- An Auth Context state holding a present user and a present — but
empty-string — token. -/
def emptyTokenContextState : AuthContextState where
  user := some demoUser
  token := some ""

/-- A concrete backend behaviour for `POST /auth/refresh`: accepts exactly
the refresh token `"r1"`, answering with the token `"newtok"`. -/
def demoExchange : String → Option String := fun r =>
  if r = "r1" then some "newtok" else none

/-- A state in which durable storage holds an `authToken` entry but no
`refreshToken`, while session-scoped storage holds the only refresh
token. -/
def staleAuthState : AuthServiceState where
  currentUser := some demoUser
  authToken := some "stale"
  localStorage := Storage.empty.setItem "authToken" "stale"
  sessionStorage := Storage.empty.setItem "refreshToken" "r1"

/-- A state in which neither storage area holds any entry. -/
def noRefreshState : AuthServiceState where
  currentUser := some demoUser
  authToken := some "stale"
  localStorage := Storage.empty
  sessionStorage := Storage.empty

/-- A state in which session-scoped storage stores a `refreshToken` entry
whose value is the empty string. -/
def emptyEntryState : AuthServiceState where
  currentUser := some demoUser
  authToken := some "stale"
  localStorage := Storage.empty
  sessionStorage := Storage.empty.setItem "refreshToken" ""

/-- A concrete payload-decoding behaviour: one token with a numeric `exp`
claim of `100`, one token whose payload parses but carries no `exp`
claim, everything else malformed. -/
def demoDecode : String → Option DecodedPayload := fun t =>
  if t = "head.goodpayload.sig" then some (DecodedPayload.withExp 100)
  else if t = "head.noexppayload.sig" then some DecodedPayload.withoutExp
  else none

/-- The decode behaviour of the real pipeline on the token
`"h.bnVsbA==.s"`: its second dot-separated segment `"bnVsbA=="`
base64-decodes (`atob`) to the four characters `null`, which `JSON.parse`
accepts as the JSON literal `null` — a valid JSON document containing no
`exp` claim.  The subsequent property access `payload.exp` throws a
`TypeError` on `null`, which the `catch` block converts to `true`. -/
def nullPayloadDecode : String → Option DecodedPayload := fun t =>
  if t = "h.bnVsbA==.s" then some DecodedPayload.nullPayload else none

/-- A backend page response with 25 matching customers, page size 10. -/
def respC0 : PaginatedResponse Customer where
  data := []
  total := 25
  limit := 10
  page := 1

/-- A backend page response with no matching payments, page size 10. -/
def respP0 : PaginatedResponse Payment where
  data := []
  total := 0
  limit := 10
  page := 1

/-- The customers screen's initial state. -/
def scInit : CustomerScreenState where
  customers := []
  loading := true
  error := none
  page := 1
  totalPages := 1
  filters := fun _ => none
  searchTerm := ""

/-- The payments screen's initial state. -/
def spInit : PaymentScreenState where
  payments := []
  loading := true
  error := none
  page := 1
  totalPages := 1
  filters := fun _ => none

/-- A concrete customer. -/
def cDemo1 : Customer where
  id := "c1"
  name := "Ana"
  email := "ana@example.com"
  phone := "081"
  totalBookings := none
  createdAt := "2024-01-01"
  updatedAt := "2024-01-01"

/-- A second concrete customer with a distinct id. -/
def cDemo2 : Customer where
  id := "c2"
  name := "Budi"
  email := "budi@example.com"
  phone := "082"
  totalBookings := some 3
  createdAt := "2024-01-02"
  updatedAt := "2024-01-02"

/-- A concrete booking. -/
def bkDemo1 : Booking where
  id := "b1"
  customerId := "c1"
  stylistId := "s1"
  serviceId := "v1"
  bookingDate := "2024-01-20"
  startTime := "10:00"
  status := "PENDING"

/-- A second concrete booking with a distinct id. -/
def bkDemo2 : Booking where
  id := "b2"
  customerId := "c2"
  stylistId := "s1"
  serviceId := "v1"
  bookingDate := "2024-01-21"
  startTime := "11:00"
  status := "CONFIRMED"

/-- A customers screen showing two customers on page 2. -/
def scDel : CustomerScreenState :=
  { scInit with customers := [cDemo1, cDemo2], page := 2 }

/-- A bookings screen showing two bookings on page 2. -/
def bsDel : BookingScreenState where
  bookings := [bkDemo1, bkDemo2]
  page := 2
  limit := 10
  total := 2
  totalPages := 1

/-- A filter object whose only own property is `status: "pending"`. -/
def statusFilters : Filters :=
  fun k => if k = "status" then some (some "pending") else none

/-- The argument of the payments screen's "Semua" button,
`handleFilterChange({ status: undefined })`: an object owning the key
`status` with the explicit value `undefined`. -/
def clearStatus : Filters :=
  fun k => if k = "status" then some none else none

/-- A payments screen on page 3 with an active `status` filter. -/
def spDemo : PaymentScreenState :=
  { spInit with filters := statusFilters, page := 3 }

/-! ### Helper lemmas -/

theorem truthyStr_jsOrStr (a b : Option String) :
    truthyStr (jsOrStr a b) = (truthyStr a || truthyStr b) := by
  unfold jsOrStr
  by_cases h : truthyStr a = true
  · simp [h]
  · simp at h
    simp [h]

theorem jsCeilDiv_eq (m n : ℕ) (hn : 0 < n) : jsCeilDiv m n = (m + n - 1) / n := by
  have hq := Nat.div_add_mod (m + n - 1) n
  have hr := Nat.mod_lt (m + n - 1) hn
  set q := (m + n - 1) / n with hqdef
  set r := (m + n - 1) % n with hrdef
  have h1 : m ≤ n * q := by omega
  have h2 : n * q < m + n := by omega
  have hn' : (0 : ℚ) < (n : ℚ) := by exact_mod_cast hn
  have hceil : Int.ceil ((m : ℚ) / (n : ℚ)) = (q : ℤ) := by
    rw [Int.ceil_eq_iff]
    constructor
    · rw [lt_div_iff₀ hn']
      have : (n : ℚ) * q < m + n := by exact_mod_cast h2
      push_cast
      nlinarith
    · rw [div_le_iff₀ hn']
      have : (m : ℚ) ≤ n * q := by exact_mod_cast h1
      push_cast
      nlinarith
  unfold jsCeilDiv
  rw [hceil]
  simp

theorem filter_ne_length_of_nodup {α : Type} (key : α → String) :
    ∀ (l : List α) (i : String), (l.map key).Nodup → i ∈ l.map key →
      (l.filter (fun a => key a ≠ i)).length + 1 = l.length := by
  intro l
  induction l with
  | nil =>
    intro i _ h
    simp at h
  | cons a l ih =>
    intro i hnd hmem
    simp only [List.map_cons, List.nodup_cons] at hnd
    obtain ⟨hna, hnd⟩ := hnd
    simp only [List.map_cons, List.mem_cons] at hmem
    by_cases hid : key a = i
    · have hall : l.filter (fun x => key x ≠ i) = l := by
        refine List.filter_eq_self.mpr ?_
        intro x hx
        simp only [ne_eq, decide_eq_true_eq]
        intro hEq
        have hxm : key x ∈ l.map key := List.mem_map_of_mem key hx
        rw [hEq, ← hid] at hxm
        exact hna hxm
      rw [List.filter_cons, if_neg (by simp [hid]), hall, List.length_cons]
    · have hmem' : i ∈ l.map key := by
        rcases hmem with h | h
        · exact absurd h.symm hid
        · exact h
      have hlen := ih i hnd hmem'
      rw [List.filter_cons, if_pos (by simp [hid])]
      simp only [List.length_cons]
      omega

theorem refreshTokenOp_noRefresh_iff (exchange : String → Option String)
    (s : AuthServiceState) :
    ((refreshTokenOp exchange s).1 = Except.error RefreshError.noRefreshToken) ↔
    truthyStr (jsOrStr (s.localStorage.getItem "refreshToken")
      (s.sessionStorage.getItem "refreshToken")) = false := by
  cases hj : jsOrStr (s.localStorage.getItem "refreshToken")
      (s.sessionStorage.getItem "refreshToken") with
  | none => simp [refreshTokenOp, hj, truthyStr]
  | some r =>
    by_cases hr : r = ""
    · subst hr
      simp [refreshTokenOp, hj, truthyStr]
    · have hts : truthyStr (some r) = true := by simp [truthyStr, hr]
      cases hex : exchange r with
      | none => simp [refreshTokenOp, hj, hr, hex, hts]
      | some nt =>
        by_cases hl : truthyStr (s.localStorage.getItem "authToken") = true
        · simp [refreshTokenOp, hj, hr, hex, hl, hts]
        · simp only [Bool.not_eq_true] at hl
          simp [refreshTokenOp, hj, hr, hex, hl, hts]

theorem refreshTokenOp_clears_on_error (exchange : String → Option String)
    (s : AuthServiceState) (e : RefreshError)
    (h : (refreshTokenOp exchange s).1 = Except.error e) :
    (refreshTokenOp exchange s).2 = clearAuth s := by
  cases hj : jsOrStr (s.localStorage.getItem "refreshToken")
      (s.sessionStorage.getItem "refreshToken") with
  | none => simp [refreshTokenOp, hj]
  | some r =>
    by_cases hr : r = ""
    · simp [refreshTokenOp, hj, hr]
    · cases hex : exchange r with
      | none => simp [refreshTokenOp, hj, hr, hex]
      | some nt =>
        exfalso
        by_cases hl : truthyStr (s.localStorage.getItem "authToken") = true
        · simp [refreshTokenOp, hj, hr, hex, hl] at h
        · simp only [Bool.not_eq_true] at hl
          simp [refreshTokenOp, hj, hr, hex, hl] at h

theorem refreshTokenOp_success (exchange : String → Option String) (s : AuthServiceState)
    (r newTok : String)
    (hread : jsOrStr (s.localStorage.getItem "refreshToken")
      (s.sessionStorage.getItem "refreshToken") = some r)
    (hr : r ≠ "") (hex : exchange r = some newTok) :
    refreshTokenOp exchange s =
      (Except.ok newTok,
        if truthyStr (s.localStorage.getItem "authToken") = true then
          { s with authToken := some newTok,
                   localStorage := s.localStorage.setItem "authToken" newTok }
        else
          { s with authToken := some newTok,
                   sessionStorage := s.sessionStorage.setItem "authToken" newTok }) := by
  unfold refreshTokenOp
  rw [hread]
  dsimp only
  rw [if_neg hr, hex]
  dsimp only
  by_cases hl : truthyStr (s.localStorage.getItem "authToken") = true
  · rw [if_pos hl, if_pos hl]
  · rw [if_neg hl, if_neg hl]

theorem clearAuth_getItems (s : AuthServiceState) :
    (clearAuth s).currentUser = none ∧
    (clearAuth s).authToken = none ∧
    (clearAuth s).localStorage.getItem "authToken" = none ∧
    (clearAuth s).localStorage.getItem "refreshToken" = none ∧
    (clearAuth s).localStorage.getItem "user" = none ∧
    (clearAuth s).sessionStorage.getItem "authToken" = none ∧
    (clearAuth s).sessionStorage.getItem "refreshToken" = none ∧
    (clearAuth s).isAuthenticated = false :=
  ⟨rfl, rfl, rfl, rfl, rfl, rfl, rfl, rfl⟩

/-! ### Claim theorems -/

/-- Claim C1, counterexample: a Session Manager state and an Auth Context
state in which both the user and the token are present — the token being
the (present) empty string — while `isAuthenticated` is `false`.  This
refutes the claimed equivalence `isAuthenticated ⟺ user present ∧ token
present`: JavaScript truthiness (`!!`) treats the empty string like an
absent value. -/
theorem auth_present_token_empty_not_authenticated :
    emptyTokenServiceState.currentUser.isSome = true ∧
    emptyTokenServiceState.authToken.isSome = true ∧
    emptyTokenServiceState.isAuthenticated = false ∧
    emptyTokenContextState.user.isSome = true ∧
    emptyTokenContextState.token.isSome = true ∧
    emptyTokenContextState.isAuthenticated = false :=
  ⟨rfl, rfl, rfl, rfl, rfl, rfl⟩

/-- Claim C1, amended: for every state of the Session Manager and of the
Auth Context, `isAuthenticated` is true if and only if the user is
present and the token is present and non-empty; whenever either is absent
(or the token is the empty string), `isAuthenticated` is false. -/
theorem isAuthenticated_iff_user_and_nonempty_token
    (s : AuthServiceState) (c : AuthContextState) :
    (s.isAuthenticated = true ↔
      s.currentUser.isSome = true ∧ ∃ t, s.authToken = some t ∧ t ≠ "") ∧
    (c.isAuthenticated = true ↔
      c.user.isSome = true ∧ ∃ t, c.token = some t ∧ t ≠ "") := by
  obtain ⟨su, st, sl, ss⟩ := s
  obtain ⟨cu, ct⟩ := c
  constructor
  · cases st with
    | none => simp [AuthServiceState.isAuthenticated, truthyStr]
    | some t => simp [AuthServiceState.isAuthenticated, truthyStr, and_comm]
  · cases ct with
    | none => simp [AuthContextState.isAuthenticated, truthyStr]
    | some t => simp [AuthContextState.isAuthenticated, truthyStr]

/-- Claim C2: for every prior state and regardless of whether the
server-side logout call succeeds, `logout()` terminates without
propagating an error (its result type is a plain state) and leaves both
storage areas empty of `authToken` and `refreshToken` and the in-memory
user and token cleared. -/
theorem logout_clears_all_credentials (serverOk : Bool) (s : AuthServiceState) :
    (logout serverOk s).currentUser = none ∧
    (logout serverOk s).authToken = none ∧
    (logout serverOk s).localStorage.getItem "authToken" = none ∧
    (logout serverOk s).localStorage.getItem "refreshToken" = none ∧
    (logout serverOk s).sessionStorage.getItem "authToken" = none ∧
    (logout serverOk s).sessionStorage.getItem "refreshToken" = none ∧
    (logout serverOk s).isAuthenticated = false := by
  cases serverOk with
  | true => exact ⟨rfl, rfl, rfl, rfl, rfl, rfl, rfl⟩
  | false => exact ⟨rfl, rfl, rfl, rfl, rfl, rfl, rfl⟩

/-- Claim C3: every successful login persists the token and refresh token
to durable storage when `remember` is true and to session-scoped storage
only (durable entries untouched) when `remember` is false, and persists
the serialized user record to durable storage in both cases. -/
theorem login_persists_by_remember (stringify : User → String)
    (resp : LoginResponse) (credentials : LoginForm) (s : AuthServiceState) :
    (login stringify (some resp) credentials s).1 = Except.ok resp ∧
    (login stringify (some resp) credentials s).2.localStorage.getItem "user"
      = some (stringify resp.user) ∧
    (login stringify (some resp) credentials s).2.localStorage.getItem "authToken"
      = (if credentials.remember then some resp.token
         else s.localStorage.getItem "authToken") ∧
    (login stringify (some resp) credentials s).2.localStorage.getItem "refreshToken"
      = (if credentials.remember then some resp.refreshToken
         else s.localStorage.getItem "refreshToken") ∧
    (login stringify (some resp) credentials s).2.sessionStorage.getItem "authToken"
      = (if credentials.remember then s.sessionStorage.getItem "authToken"
         else some resp.token) ∧
    (login stringify (some resp) credentials s).2.sessionStorage.getItem "refreshToken"
      = (if credentials.remember then s.sessionStorage.getItem "refreshToken"
         else some resp.refreshToken) ∧
    (login stringify (some resp) credentials s).2.currentUser = some resp.user ∧
    (login stringify (some resp) credentials s).2.authToken = some resp.token := by
  obtain ⟨em, pw, remember⟩ := credentials
  cases remember with
  | true => exact ⟨rfl, rfl, rfl, rfl, rfl, rfl, rfl, rfl⟩
  | false => exact ⟨rfl, rfl, rfl, rfl, rfl, rfl, rfl, rfl⟩

/-- Claim C4, counterexample: a state whose only stored refresh token
lives in session-scoped storage while durable storage holds a (stale)
`authToken` entry.  The refresh succeeds, but the new token is persisted
to durable storage — not to the session-scoped store the refresh token
was read from — because the code selects the write target by where an
`authToken` entry lives, not by where the refresh token was found. -/
theorem refresh_new_token_not_in_read_location :
    staleAuthState.localStorage.getItem "refreshToken" = none ∧
    staleAuthState.sessionStorage.getItem "refreshToken" = some "r1" ∧
    (refreshTokenOp demoExchange staleAuthState).1 = Except.ok "newtok" ∧
    (refreshTokenOp demoExchange staleAuthState).2.sessionStorage.getItem "authToken" = none ∧
    (refreshTokenOp demoExchange staleAuthState).2.localStorage.getItem "authToken"
      = some "newtok" :=
  ⟨rfl, rfl, rfl, rfl, rfl⟩

/-- Claim C4, amended: a successful `refreshToken()` reads the refresh
token checking durable storage first, and persists the newly obtained
token to durable storage when durable storage currently holds a
(non-empty) `authToken` entry and to session-scoped storage otherwise,
leaving the other storage area untouched. -/
theorem refresh_persists_by_auth_token_location
    (exchange : String → Option String) (s : AuthServiceState) (r newTok : String)
    (hread : jsOrStr (s.localStorage.getItem "refreshToken")
      (s.sessionStorage.getItem "refreshToken") = some r)
    (hr : r ≠ "") (hex : exchange r = some newTok) :
    (refreshTokenOp exchange s).1 = Except.ok newTok ∧
    (refreshTokenOp exchange s).2.authToken = some newTok ∧
    (∀ rl, s.localStorage.getItem "refreshToken" = some rl → rl ≠ "" → r = rl) ∧
    (if truthyStr (s.localStorage.getItem "authToken") = true
      then (refreshTokenOp exchange s).2.localStorage.getItem "authToken" = some newTok ∧
           (refreshTokenOp exchange s).2.sessionStorage = s.sessionStorage
      else (refreshTokenOp exchange s).2.sessionStorage.getItem "authToken" = some newTok ∧
           (refreshTokenOp exchange s).2.localStorage = s.localStorage) := by
  have hfirst : ∀ rl, s.localStorage.getItem "refreshToken" = some rl → rl ≠ "" → r = rl := by
    intro rl hrl hrlne
    rw [hrl] at hread
    unfold jsOrStr at hread
    simp [truthyStr, hrlne] at hread
    exact hread.symm
  have hop := refreshTokenOp_success exchange s r newTok hread hr hex
  rw [hop]
  refine ⟨rfl, ?_, hfirst, ?_⟩
  · by_cases hl : truthyStr (s.localStorage.getItem "authToken") = true <;> simp [hl]
  · by_cases hl : truthyStr (s.localStorage.getItem "authToken") = true
    · simp only [if_pos hl]
      simp [Storage.getItem, Storage.setItem]
    · simp only [if_neg hl]
      simp [Storage.getItem, Storage.setItem]

/-- Claim C5, counterexample: a state whose session-scoped storage stores
a `refreshToken` entry (the empty string), so a refresh token entry *is*
stored, yet `refreshToken()` fails with `NoRefreshToken` — refuting the
"exactly when no refresh token is stored in either storage location"
equivalence (an empty-string entry is read as falsy). -/
theorem refresh_noRefreshToken_despite_stored_entry :
    (emptyEntryState.sessionStorage.getItem "refreshToken").isSome = true ∧
    (refreshTokenOp demoExchange emptyEntryState).1
      = Except.error RefreshError.noRefreshToken :=
  ⟨rfl, rfl⟩

/-- Claim C5, amended: `refreshToken()` fails with `NoRefreshToken`
exactly when neither storage location holds a non-empty `refreshToken`
entry, fails with `RefreshFailed` when the exchange of a read refresh
token is rejected, and in both failure cases the entire session is
cleared as a side effect (in-memory user and token nulled, both storages
emptied of credentials), leaving `isAuthenticated` false. -/
theorem refresh_failure_modes (exchange : String → Option String) (s : AuthServiceState) :
    ((refreshTokenOp exchange s).1 = Except.error RefreshError.noRefreshToken ↔
      truthyStr (s.localStorage.getItem "refreshToken") = false ∧
      truthyStr (s.sessionStorage.getItem "refreshToken") = false) ∧
    (∀ r, jsOrStr (s.localStorage.getItem "refreshToken")
        (s.sessionStorage.getItem "refreshToken") = some r →
      r ≠ "" → exchange r = none →
      (refreshTokenOp exchange s).1 = Except.error RefreshError.refreshFailed) ∧
    (∀ e, (refreshTokenOp exchange s).1 = Except.error e →
      (refreshTokenOp exchange s).2.currentUser = none ∧
      (refreshTokenOp exchange s).2.authToken = none ∧
      (refreshTokenOp exchange s).2.localStorage.getItem "authToken" = none ∧
      (refreshTokenOp exchange s).2.localStorage.getItem "refreshToken" = none ∧
      (refreshTokenOp exchange s).2.localStorage.getItem "user" = none ∧
      (refreshTokenOp exchange s).2.sessionStorage.getItem "authToken" = none ∧
      (refreshTokenOp exchange s).2.sessionStorage.getItem "refreshToken" = none ∧
      (refreshTokenOp exchange s).2.isAuthenticated = false) := by
  refine ⟨?_, ?_, ?_⟩
  · rw [refreshTokenOp_noRefresh_iff, truthyStr_jsOrStr]
    simp [Bool.or_eq_false_iff]
  · intro r hread hr hex
    simp [refreshTokenOp, hread, hr, hex]
  · intro e he
    rw [refreshTokenOp_clears_on_error exchange s e he]
    exact clearAuth_getItems s

/-- Claim C5, witness: with empty storage areas the refresh fails with
`NoRefreshToken` and leaves `isAuthenticated` false. -/
theorem refresh_failure_modes_witness :
    (refreshTokenOp demoExchange noRefreshState).1
      = Except.error RefreshError.noRefreshToken ∧
    (refreshTokenOp demoExchange noRefreshState).2.isAuthenticated = false := by
  have h := refresh_failure_modes demoExchange noRefreshState
  have herr : (refreshTokenOp demoExchange noRefreshState).1
      = Except.error RefreshError.noRefreshToken := h.1.mpr ⟨rfl, rfl⟩
  exact ⟨herr, (h.2.2 RefreshError.noRefreshToken herr).2.2.2.2.2.2.2⟩

/-- Claim C4, witness: at the concrete state of the counterexample the
amended statement is verified — the exchange succeeds and the new token
lands in durable storage, where the `authToken` entry lives. -/
theorem refresh_persists_by_auth_token_location_witness :
    (refreshTokenOp demoExchange staleAuthState).1 = Except.ok "newtok" ∧
    (refreshTokenOp demoExchange staleAuthState).2.authToken = some "newtok" := by
  have h := refresh_persists_by_auth_token_location demoExchange staleAuthState
    "r1" "newtok" rfl (by decide) rfl
  exact ⟨h.1, h.2.1⟩

/-- Claim C6: `isTokenExpired` returns true when the checked token is
missing, when its payload is malformed (the decode pipeline throws), and
when it carries an `exp` claim earlier than the current time; it returns
false for a well-formed token whose `exp` claim lies in the future. -/
theorem isTokenExpired_cases (decode : String → Option DecodedPayload) (now : Int)
    (authToken tokenArg : Option String) :
    (jsOrStr tokenArg authToken = none →
      isTokenExpired decode now authToken tokenArg = true) ∧
    (∀ t, jsOrStr tokenArg authToken = some t → t ≠ "" → decode t = none →
      isTokenExpired decode now authToken tokenArg = true) ∧
    (∀ t e, jsOrStr tokenArg authToken = some t → t ≠ "" →
      decode t = some (DecodedPayload.withExp e) → e < now →
      isTokenExpired decode now authToken tokenArg = true) ∧
    (∀ t e, jsOrStr tokenArg authToken = some t → t ≠ "" →
      decode t = some (DecodedPayload.withExp e) → now < e →
      isTokenExpired decode now authToken tokenArg = false) := by
  refine ⟨?_, ?_, ?_, ?_⟩
  · intro h
    simp [isTokenExpired, h]
  · intro t ht hne hd
    simp [isTokenExpired, ht, hne, hd]
  · intro t e ht hne hd hlt
    simp [isTokenExpired, ht, hne, hd, hlt]
  · intro t e ht hne hd hgt
    simp [isTokenExpired, ht, hne, hd]
    omega

/-- Claim C6, witness: concrete evaluations — a missing token, a
malformed token, a token expired at time 200, and the same token not yet
expired at time 50 (its `exp` claim is 100). -/
theorem isTokenExpired_cases_witness :
    isTokenExpired demoDecode 50 none none = true ∧
    isTokenExpired demoDecode 50 none (some "bad.tok.en") = true ∧
    isTokenExpired demoDecode 200 none (some "head.goodpayload.sig") = true ∧
    isTokenExpired demoDecode 50 none (some "head.goodpayload.sig") = false := by
  refine ⟨?_, ?_, ?_, ?_⟩
  · exact (isTokenExpired_cases demoDecode 50 none none).1 rfl
  · exact (isTokenExpired_cases demoDecode 50 none (some "bad.tok.en")).2.1
      "bad.tok.en" rfl (by decide) rfl
  · exact (isTokenExpired_cases demoDecode 200 none
      (some "head.goodpayload.sig")).2.2.1 "head.goodpayload.sig" 100 rfl (by decide) rfl
      (by decide)
  · exact (isTokenExpired_cases demoDecode 50 none
      (some "head.goodpayload.sig")).2.2.2 "head.goodpayload.sig" 100 rfl (by decide) rfl
      (by decide)

/-- Claim C7: for every paginated fetch response with a positive page
size, the `totalPages` value stored by the customers and payments screen
controllers equals `ceil(total / limit)` — computed here as the exact
rational ceiling, shown equal to the integer formula
`(total + limit - 1) / limit` — including `total = 0` yielding
`totalPages = 0`. -/
theorem totalPages_is_ceil (respC : PaginatedResponse Customer)
    (respP : PaginatedResponse Payment)
    (sc : CustomerScreenState) (sp : PaymentScreenState)
    (hC : 0 < respC.limit) (hP : 0 < respP.limit) :
    ((fetchCustomersSuccess respC sc).totalPages
        = (respC.total + respC.limit - 1) / respC.limit ∧
      (respC.total = 0 → (fetchCustomersSuccess respC sc).totalPages = 0)) ∧
    ((fetchPaymentsSuccess respP sp).totalPages
        = (respP.total + respP.limit - 1) / respP.limit ∧
      (respP.total = 0 → (fetchPaymentsSuccess respP sp).totalPages = 0)) := by
  have hc := jsCeilDiv_eq respC.total respC.limit hC
  have hp := jsCeilDiv_eq respP.total respP.limit hP
  refine ⟨⟨hc, ?_⟩, ⟨hp, ?_⟩⟩
  · intro h0
    show jsCeilDiv respC.total respC.limit = 0
    rw [hc, h0]
    exact Nat.div_eq_of_lt (by omega)
  · intro h0
    show jsCeilDiv respP.total respP.limit = 0
    rw [hp, h0]
    exact Nat.div_eq_of_lt (by omega)

/-- Claim C7, witness: a response with 25 customers at page size 10
stores 3 total pages; a response with 0 payments stores 0. -/
theorem totalPages_is_ceil_witness :
    (fetchCustomersSuccess respC0 scInit).totalPages = 3 ∧
    (fetchPaymentsSuccess respP0 spInit).totalPages = 0 := by
  have h := totalPages_is_ceil respC0 respP0 scInit spInit (by decide) (by decide)
  exact ⟨h.1.1.trans (by decide), h.2.2 rfl⟩

/-- Claim C8: on both modelled list screens, applying a filter change
resets the page state to 1 and triggers exactly one new list fetch, whose
parameters carry page 1, the fixed page size 10, and the updated (merged)
filters — with the customers screen additionally merging its search term
into the query.  The merge follows JavaScript spread semantics: every own
property of the change object overrides the old filter, including a
property explicitly set to `undefined` (which clears that filter), and
keys absent from the change object keep their old value. -/
theorem filter_change_resets_page_single_fetch (nf : Filters)
    (s : CustomerScreenState) (p : PaymentScreenState) :
    (applyFilterChange nf s).1.page = 1 ∧
    (applyFilterChange nf s).2 =
      [{ page := 1, limit := 10,
         filters := fun k => if k = "search" then some (some s.searchTerm)
                    else mergeFilters s.filters nf k }] ∧
    (applyFilterChangePayments nf p).1.page = 1 ∧
    (applyFilterChangePayments nf p).2 =
      [{ page := 1, limit := 10, filters := mergeFilters p.filters nf }] ∧
    (∀ k v, nf k = some v → mergeFilters p.filters nf k = some v) ∧
    (∀ k, nf k = none → mergeFilters p.filters nf k = p.filters k) := by
  refine ⟨rfl, rfl, rfl, rfl, ?_, ?_⟩
  · intro k v h
    unfold mergeFilters
    rw [h]
    rfl
  · intro k h
    unfold mergeFilters
    rw [h]
    rfl

/-- Claim C8, witness: the payments screen's "Semua" button event
`handleFilterChange({ status: undefined })`, fired on page 3 with an
active `status: "pending"` filter, resets the page to 1 and issues
exactly one fetch whose filter object owns the key `status` with the
explicit value `undefined` — the old `"pending"` value is cleared, not
retained. -/
theorem filter_change_resets_page_single_fetch_witness :
    (applyFilterChangePayments clearStatus spDemo).1.page = 1 ∧
    (applyFilterChangePayments clearStatus spDemo).2 =
      [{ page := 1, limit := 10, filters := mergeFilters spDemo.filters clearStatus }] ∧
    mergeFilters spDemo.filters clearStatus "status" = some none ∧
    spDemo.filters "status" = some (some "pending") := by
  have h := filter_change_resets_page_single_fetch clearStatus scInit spDemo
  refine ⟨h.2.2.1, h.2.2.2.1, ?_, rfl⟩
  exact h.2.2.2.2.1 "status" none rfl

/-- Claim C9: on the customers and booking-management screens, when the
displayed items carry pairwise distinct ids and the deleted id is
present, the optimistic delete path removes exactly one item — the one
with the matching id — from the in-memory list (every other item is
kept, every kept item comes from the original list and does not match),
leaves the page state unchanged, and triggers no refetch. -/
theorem optimistic_delete_removes_exactly_one
    (s : CustomerScreenState) (b : BookingScreenState) (cid bid : String)
    (hcN : (s.customers.map Customer.id).Nodup)
    (hcM : cid ∈ s.customers.map Customer.id)
    (hbN : (b.bookings.map Booking.id).Nodup)
    (hbM : bid ∈ b.bookings.map Booking.id) :
    ((handleDeleteCustomerSuccess cid s).1.customers.length + 1 = s.customers.length ∧
      (∀ c, c ∈ (handleDeleteCustomerSuccess cid s).1.customers ↔
        c ∈ s.customers ∧ c.id ≠ cid) ∧
      (handleDeleteCustomerSuccess cid s).1.page = s.page ∧
      (handleDeleteCustomerSuccess cid s).2 = []) ∧
    ((handleDeleteBookingSuccess bid b).1.bookings.length + 1 = b.bookings.length ∧
      (∀ bk, bk ∈ (handleDeleteBookingSuccess bid b).1.bookings ↔
        bk ∈ b.bookings ∧ bk.id ≠ bid) ∧
      (handleDeleteBookingSuccess bid b).1.page = b.page ∧
      (handleDeleteBookingSuccess bid b).2 = []) := by
  refine ⟨⟨?_, ?_, rfl, rfl⟩, ⟨?_, ?_, rfl, rfl⟩⟩
  · exact filter_ne_length_of_nodup Customer.id s.customers cid hcN hcM
  · intro c
    simp [handleDeleteCustomerSuccess, List.mem_filter]
  · exact filter_ne_length_of_nodup Booking.id b.bookings bid hbN hbM
  · intro bk
    simp [handleDeleteBookingSuccess, List.mem_filter]

/-- Claim C9, witness: deleting customer `"c1"` from a two-customer list
and booking `"b1"` from a two-booking list each leaves exactly one item
and issues no fetch. -/
theorem optimistic_delete_removes_exactly_one_witness :
    (handleDeleteCustomerSuccess "c1" scDel).1.customers.length + 1
      = scDel.customers.length ∧
    (handleDeleteCustomerSuccess "c1" scDel).1.page = scDel.page ∧
    (handleDeleteBookingSuccess "b1" bsDel).1.bookings.length + 1
      = bsDel.bookings.length ∧
    (handleDeleteBookingSuccess "b1" bsDel).2 = [] := by
  have h := optimistic_delete_removes_exactly_one scDel bsDel "c1" "b1"
    (by decide) (by decide) (by decide) (by decide)
  exact ⟨h.1.1, h.1.2.2.1, h.2.1, h.2.2.2.2⟩

/-- Claim C10, counterexample: the token `"h.bnVsbA==.s"`, whose second
dot-separated segment decodes to the valid JSON document `null` (which
contains no `exp` claim), is reported *expired* (`true`), because the
property access `payload.exp` throws on a null payload and the `catch`
returns true — refuting "every token whose payload is valid JSON without
an `exp` claim is treated as not expired". -/
theorem null_payload_token_treated_expired :
    nullPayloadDecode "h.bnVsbA==.s" = some DecodedPayload.nullPayload ∧
    isTokenExpired nullPayloadDecode 0 none (some "h.bnVsbA==.s") = true :=
  ⟨rfl, rfl⟩

/-- Claim C10, amended: for every non-empty token string whose payload
decodes to valid JSON other than the `null` literal and contains no `exp`
claim, `isTokenExpired` returns false (treated as not expired rather than
fail-safe expired); a `null` payload is instead treated as expired. -/
theorem no_exp_claim_not_expired (decode : String → Option DecodedPayload)
    (now : Int) (authToken : Option String) (t : String) (ht : t ≠ "")
    (hd : decode t = some DecodedPayload.withoutExp) :
    isTokenExpired decode now authToken (some t) = false := by
  simp [isTokenExpired, jsOrStr, truthyStr, ht, hd]

/-- Claim C10, witness: the token with a parsed payload carrying no `exp`
claim evaluates to not-expired. -/
theorem no_exp_claim_not_expired_witness :
    isTokenExpired demoDecode 0 none (some "head.noexppayload.sig") = false :=
  no_exp_claim_not_expired demoDecode 0 none "head.noexppayload.sig" (by decide) rfl

end RusdiBarber
